import Mathlib

/-
  Verification of the Fast-BOZ chat gateway (src/main.py) against its
  specification.  The gateway is embedded shallowly: the external g4f
  completion engine is a parameter (its module attributes, the outcome of
  one `create_async` call, and its provider introspection), and the
  `chat_with_ai` and `list_models` handlers become pure Lean functions.
-/

namespace FastBOZ

/-- A chat message, mirroring the pydantic `Message` model (role, content). -/
structure Message where
  role : String
  content : String
deriving Repr, DecidableEq

/-- The pydantic `ChatRequest` model: `message : str`,
`history : Optional[List[Message]] = []`,
`model : Optional[str] = "gpt-4o-mini"`.  Since `Optional[str]` admits JSON
null, the `model` field is an `Option String`. -/
structure ChatRequest where
  message : String
  history : List Message := []
  model : Option String := some "gpt-4o-mini"
deriving Repr, DecidableEq

/-- The pydantic `ChatResponse` model. -/
structure ChatResponse where
  response : String
  model : String
  provider : String
deriving Repr, DecidableEq

/-- Outcome of the single awaited engine call
`asyncio.wait_for(g4f.ChatCompletion.create_async(...), timeout=30.0)`:
it returns a string, raises an exception carrying an error text, or exceeds
the 30 s deadline (in which case any text the engine later produces is
recorded as `lateText`, to state that it is discarded). -/
inductive EngineOutcome where
  | returns (text : String)
  | raises (errText : String)
  | timesOut (lateText : String)
deriving Repr, DecidableEq

/-- Provider introspection on `g4f.ChatCompletion`: the `provider`
attribute is absent (`hasattr` false), or present with a readable
`__name__`, or present but reading the name raises. -/
inductive ProviderIntro where
  | absent
  | present (name : String)
  | presentRaises
deriving Repr, DecidableEq

/-- The external g4f engine, as the gateway observes it:
`attrs` is the attribute dictionary of `g4f.models` (attribute name paired
with the `str()` form of the model object it holds), `outcome` the behaviour
of the one engine call, `provider` the provider introspection, and
`listThrows` whether enumerating `dir(g4f.models)` raises. -/
structure Engine where
  attrs : List (String × String)
  outcome : EngineOutcome
  provider : ProviderIntro
  listThrows : Bool
deriving Repr, DecidableEq

/-- Result of a handler: a successful `ChatResponse`, or an
`HTTPException(status_code, detail)`. -/
inductive ChatResult where
  | ok (resp : ChatResponse)
  | error (status : Nat) (detail : String)
deriving Repr, DecidableEq

/-- HTTP status of a result (FastAPI returns 200 on success). -/
def ChatResult.status : ChatResult → Nat
  | .ok _ => 200
  | .error s _ => s

/-- Full observable behaviour of one `chat_with_ai` call: the HTTP result,
and the message list passed to `create_async` (`none` when the engine was
never invoked). -/
structure ChatOutcome where
  result : ChatResult
  sentMessages : Option (List Message)
deriving Repr, DecidableEq

/-- The ASCII whitespace characters stripped by Python `str.strip()`. -/
def isPyWhitespace (c : Char) : Bool :=
  c == ' ' || c == '\t' || c == '\n' || c == '\r' ||
    c == Char.ofNat 11 || c == Char.ofNat 12

/-- Python `str.strip()`: drop whitespace from both ends. -/
def pyStrip (s : String) : String :=
  String.mk (((s.data.dropWhile isPyWhitespace).reverse.dropWhile
    isPyWhitespace).reverse)

/-- Python `str.startswith("_")`: whether the first character is an
underscore.  (Written on the character list so that it evaluates inside
the kernel.) -/
def startsWithUnderscore (a : String) : Bool :=
  match a.data with
  | [] => false
  | c :: _ => c == Char.ofNat 95

/-- Python single-character `str.replace(a, b)` as a character-wise map
(the gateway only ever replaces "-" by "_" and back). -/
def pyReplaceChar (a b : Char) (s : String) : String :=
  String.mk (s.data.map (fun c => if c == a then b else c))

/-- Python `str.split(sep)` for a one-character separator, on character
lists: splitting the empty string yields one empty piece, as in Python. -/
def splitOnChar (sep : Char) : List Char → List (List Char)
  | [] => [[]]
  | c :: cs =>
    if c == sep then
      [] :: splitOnChar sep cs
    else
      match splitOnChar sep cs with
      | [] => [[c]]
      | h :: t => (c :: h) :: t

/-- Whether `needle` occurs as a contiguous run inside a character list. -/
def charsContain (needle : List Char) : List Char → Bool
  | [] => needle.isEmpty
  | c :: cs => needle.isPrefixOf (c :: cs) || charsContain needle cs

/-- Python substring test `needle in hay`. -/
def strContains (hay needle : String) : Bool :=
  charsContain needle.data hay.data

/-- The role check of the validation loop: `msg.role in ["user", "assistant"]`. -/
def validRole (m : Message) : Bool :=
  m.role == "user" || m.role == "assistant"

/-- The public model catalog
`[attr for attr in dir(g4f.models) if not attr.startswith("_")]`. -/
def publicCatalog (eng : Engine) : List String :=
  (eng.attrs.map Prod.fst).filter (fun a => !startsWithUnderscore a)

/-- Python `str()` of the request model as it appears in the 400 detail:
`str(None)` is `"None"`. -/
def modelStrOf : Option String → String
  | none => "None"
  | some m => m

/-- Model resolution, lines 96-99 of main.py:
`model_name = request.model.replace("-", "_"); model = getattr(g4f.models, model_name)`.
A `None` model raises `AttributeError` on `.replace`, and a missing
attribute raises `AttributeError` in `getattr`; both land in the same
`except AttributeError` handler, so both are `none` here.  On success the
`str()` form of the resolved model object is returned. -/
def resolveModel (eng : Engine) (model : Option String) : Option String :=
  match model with
  | none => none
  | some m => eng.attrs.lookup (pyReplaceChar (Char.ofNat 45) (Char.ofNat 95) m)

/-- Detail of the 400 raised by the role validation loop. -/
def roleErrorDetail : String :=
  "Invalid role. Only \x27user\x27 and \x27assistant\x27 are allowed."

/-- Detail of the 400 raised on model resolution failure:
`f"Model '{request.model}' not found. Available: {', '.join(available)}"`. -/
def modelNotFoundDetail (eng : Engine) (model : Option String) : String :=
  "Model \x27" ++ modelStrOf model ++ "\x27 not found. Available: " ++
    String.intercalate ", " (publicCatalog eng)

/-- Detail of the 504 timeout error. -/
def timeoutDetail : String := "AI response timed out"

/-- Detail of the 502 empty-response error. -/
def emptyDetail : String := "Empty response from AI"

/-- Detail of the 503 Cloudflare-blocked error. -/
def blockedDetail : String := "AI service is temporarily blocked"

/-- Detail of the generic 500 engine error. -/
def failedDetail : String := "AI processing failed"

/-- Detail of the 500 raised when model enumeration throws. -/
def modelsErrorDetail : String := "Could not retrieve models"

/-- The response model name, line 120:
`str(model).split(".")[-1].replace("_", "-")`. -/
def usedModelName (strForm : String) : String :=
  pyReplaceChar (Char.ofNat 95) (Char.ofNat 45)
    (String.mk ((splitOnChar (Char.ofNat 46) strForm.data).getLastD []))

/-- The response provider name, lines 121-126: `"Unknown"` when
`g4f.ChatCompletion` has no `provider` attribute, its `__name__` when
readable, `"Auto"` when reading it raises. -/
def providerName : ProviderIntro → String
  | .absent => "Unknown"
  | .present n => n
  | .presentRaises => "Auto"

/-- The `chat_with_ai` handler (main.py lines 82-146) on one request.
Validation of history roles happens before the `try` block; inside it, the
message list is built, the model resolved, the engine awaited under the
timeout, the empty response rejected, and the response assembled.
`HTTPException`s pass through the final handlers unchanged; any other
engine exception is mapped to 503 when its text contains "Cloudflare" and
to 500 otherwise. -/
def chat (eng : Engine) (req : ChatRequest) : ChatOutcome :=
  if !req.history.all validRole then
    { result := .error 400 roleErrorDetail, sentMessages := none }
  else
    let messages :=
      req.history.map (fun m => { role := m.role, content := m.content }) ++
        [{ role := "user", content := req.message }]
    match resolveModel eng req.model with
    | none =>
      { result := .error 400 (modelNotFoundDetail eng req.model),
        sentMessages := none }
    | some strForm =>
      match eng.outcome with
      | .timesOut _ =>
        { result := .error 504 timeoutDetail, sentMessages := some messages }
      | .raises errText =>
        if strContains errText "Cloudflare" then
          { result := .error 503 blockedDetail, sentMessages := some messages }
        else
          { result := .error 500 failedDetail, sentMessages := some messages }
      | .returns text =>
        if text == "" || pyStrip text == "" then
          { result := .error 502 emptyDetail, sentMessages := some messages }
        else
          { result := .ok
              { response := pyStrip text,
                model := usedModelName strForm,
                provider := providerName eng.provider },
            sentMessages := some messages }

/-- The `list_models` handler (main.py lines 56-62): the public attribute
names of `g4f.models`, or a 500 when the enumeration throws. -/
def listModels (eng : Engine) : Except (Nat × String) (List String) :=
  if eng.listThrows then
    .error (500, modelsErrorDetail)
  else
    .ok (publicCatalog eng)

/-! ## Helper lemmas -/

/-- When model resolution fails, `chat` answers 400: with the role-error
detail when some history role is invalid, and with the model-not-found
detail (carrying the joined public catalog) otherwise. -/
theorem chat_resolve_none (eng : Engine) (req : ChatRequest)
    (hres : resolveModel eng req.model = none) :
    (chat eng req).result.status = 400 ∧
    (req.history.all validRole = true →
      (chat eng req).result =
        ChatResult.error 400 (modelNotFoundDetail eng req.model)) := by
  unfold chat
  cases hall : req.history.all validRole with
  | false => simp [hall, ChatResult.status]
  | true => simp [hall, hres, ChatResult.status]

/-- A history containing one invalid-role entry makes the validation loop
fail as a whole. -/
theorem history_all_false_of_bad_role (req : ChatRequest) (m : Message)
    (hm : m ∈ req.history) (hrole : validRole m = false) :
    req.history.all validRole = false := by
  cases h : req.history.all validRole with
  | false => rfl
  | true => exact absurd (List.all_eq_true.mp h m hm) (by simp [hrole])

/-! ## Claims -/

/-- A sample engine used as concrete input by witness theorems. -/
def sampleEngine : Engine :=
  { attrs := [("gpt_4o_mini", "gpt_4o_mini")],
    outcome := .returns "hello", provider := .absent, listThrows := false }

/-- An engine with a private attribute `_secret` alongside the public
catalog, used as the counterexample input for claim C1. -/
def c1Engine : Engine :=
  { attrs := [("_secret", "special"), ("gpt_4o_mini", "gpt_4o_mini")],
    outcome := .returns "hello", provider := .absent, listThrows := false }

/-- The request whose model normalizes to the private attribute. -/
def c1Request : ChatRequest :=
  { message := "hi", history := [], model := some "-secret" }

/-- A request naming a model that resolves to no attribute at all. -/
def c1WitnessRequest : ChatRequest :=
  { message := "hi", history := [], model := some "no-such-model" }

/-- A request whose history contains a "system" role entry. -/
def c2WitnessRequest : ChatRequest :=
  { message := "hi", history := [{ role := "system", content := "x" }],
    model := some "gpt-4o-mini" }

/-- A request whose `model` field is JSON null. -/
def c10WitnessRequest : ChatRequest :=
  { message := "hi", history := [], model := none }

/-- Claim C1, counterexample: the request model "-secret" normalizes to
"_secret", which is NOT in the public catalog (attributes not starting
with an underscore), yet `chat` does not fail with 400: `getattr` resolves
the private attribute and the call succeeds. -/
theorem c1_counterexample :
    (pyReplaceChar (Char.ofNat 45) (Char.ofNat 95) (modelStrOf c1Request.model) ∉
      publicCatalog c1Engine) ∧
    (chat c1Engine c1Request).result =
      ChatResult.ok { response := "hello", model := "special",
                      provider := "Unknown" } := by
  constructor
  · decide
  · rfl

/-- Claim C1 (amended): whenever model resolution fails — the normalized
model names no attribute of `g4f.models` at all, private ones included —
`chat` fails with status 400, and when the history roles are valid the
detail is the model-not-found message listing the full public catalog. -/
theorem c1_unresolvable_model_400 (eng : Engine) (req : ChatRequest)
    (hres : resolveModel eng req.model = none) :
    (chat eng req).result.status = 400 ∧
    (req.history.all validRole = true →
      (chat eng req).result =
        ChatResult.error 400 (modelNotFoundDetail eng req.model)) :=
  chat_resolve_none eng req hres

/-- Claim C1, witness: a concrete unknown model is rejected with 400 and
the full catalog in the detail. -/
theorem c1_witness :
    (chat c1Engine c1WitnessRequest).result.status = 400 ∧
    (c1WitnessRequest.history.all validRole = true →
      (chat c1Engine c1WitnessRequest).result =
        ChatResult.error 400
          (modelNotFoundDetail c1Engine c1WitnessRequest.model)) :=
  c1_unresolvable_model_400 c1Engine c1WitnessRequest (by decide)

/-- Claim C2: a history entry whose role is neither "user" nor "assistant"
makes `chat` fail with 400 (role-error detail), and the engine is never
invoked: no message list is sent. -/
theorem c2_invalid_role_rejected_before_engine (eng : Engine)
    (req : ChatRequest) (m : Message) (hm : m ∈ req.history)
    (hrole : validRole m = false) :
    (chat eng req).result = ChatResult.error 400 roleErrorDetail ∧
    (chat eng req).sentMessages = none := by
  have hall := history_all_false_of_bad_role req m hm hrole
  unfold chat
  simp [hall]

/-- Claim C2, witness: a concrete request with a "system" role entry is
rejected with 400 before the engine is called. -/
theorem c2_witness :
    (chat sampleEngine c2WitnessRequest).result =
      ChatResult.error 400 roleErrorDetail ∧
    (chat sampleEngine c2WitnessRequest).sentMessages = none :=
  c2_invalid_role_rejected_before_engine sampleEngine c2WitnessRequest
    { role := "system", content := "x" } (by decide) (by decide)

/-- Claim C10: a request whose `model` field is JSON null (Python `None`)
passes schema validation (`Optional[str]`), and `chat` fails with status
400 through the model-not-found handler: `None.replace` raises
`AttributeError`, caught by the same `except AttributeError` as a missing
attribute, so with valid roles the detail is the model-not-found message
(for `str(None)`, i.e. "None"). -/
theorem c10_null_model_400 (eng : Engine) (req : ChatRequest)
    (hnull : req.model = none) :
    (chat eng req).result.status = 400 ∧
    (req.history.all validRole = true →
      (chat eng req).result =
        ChatResult.error 400 (modelNotFoundDetail eng none)) := by
  have hres : resolveModel eng req.model = none := by
    rw [hnull]
    rfl
  have h := chat_resolve_none eng req hres
  rw [hnull] at h
  exact h

/-- A request with the default model and an empty history. -/
def sampleRequest : ChatRequest :=
  { message := "hi", history := [], model := some "gpt-4o-mini" }

/-- An engine whose call raises an exception mentioning Cloudflare. -/
def c3Engine : Engine :=
  { attrs := [("gpt_4o_mini", "gpt_4o_mini")],
    outcome := .raises "Request blocked by Cloudflare protection",
    provider := .absent, listThrows := false }

/-- An engine whose call exceeds the 30-second deadline but later yields
the text "late answer". -/
def c4Engine : Engine :=
  { attrs := [("gpt_4o_mini", "gpt_4o_mini")],
    outcome := .timesOut "late answer",
    provider := .absent, listThrows := false }

/-- An engine whose call returns a whitespace-only string. -/
def c5Engine : Engine :=
  { attrs := [("gpt_4o_mini", "gpt_4o_mini")],
    outcome := .returns " \n\t ",
    provider := .absent, listThrows := false }

/-- A request with a two-entry valid history. -/
def c6WitnessRequest : ChatRequest :=
  { message := "and now?",
    history := [{ role := "user", content := "hello" },
                { role := "assistant", content := "hi there" }],
    model := some "gpt-4o-mini" }

/-- Claim C3: when the engine call raises a (non-HTTP, non-timeout)
exception, `chat` answers 503 when the exception text contains
"Cloudflare" and 500 otherwise; the 400 `HTTPException`s of the
validation and resolution steps keep their original status and detail
even on such an engine. -/
theorem c3_exception_mapping (eng : Engine) (req : ChatRequest)
    (msg : String) (hout : eng.outcome = .raises msg)
    (hall : req.history.all validRole = true) :
    (∀ f, resolveModel eng req.model = some f →
      (chat eng req).result =
        if strContains msg "Cloudflare" then ChatResult.error 503 blockedDetail
        else ChatResult.error 500 failedDetail) ∧
    (resolveModel eng req.model = none →
      (chat eng req).result =
        ChatResult.error 400 (modelNotFoundDetail eng req.model)) ∧
    (∀ req2 : ChatRequest, req2.history.all validRole = false →
      (chat eng req2).result = ChatResult.error 400 roleErrorDetail) := by
  refine ⟨?_, ?_, ?_⟩
  · intro f hres
    unfold chat
    simp only [hall, hres, hout, Bool.not_true, Bool.false_eq_true, if_false]
    split <;> rfl
  · intro hres
    unfold chat
    simp [hall, hres]
  · intro req2 hall2
    unfold chat
    simp [hall2]

/-- Claim C3, witness: a concrete Cloudflare-mentioning engine failure is
answered with 503. -/
theorem c3_witness :
    (chat c3Engine sampleRequest).result = ChatResult.error 503 blockedDetail := by
  have h :=
    (c3_exception_mapping c3Engine sampleRequest
      "Request blocked by Cloudflare protection" rfl rfl).1 "gpt_4o_mini" rfl
  rw [h]
  rfl

/-- Claim C4: when the engine call exceeds the 30-second deadline, `chat`
answers 504, whatever text the engine later produces: the result is the
timeout error and is never a success carrying the late text. -/
theorem c4_timeout_504 (eng : Engine) (req : ChatRequest) (late : String)
    (hout : eng.outcome = .timesOut late)
    (hall : req.history.all validRole = true)
    (f : String) (hres : resolveModel eng req.model = some f) :
    (chat eng req).result = ChatResult.error 504 timeoutDetail ∧
    ∀ resp : ChatResponse, (chat eng req).result ≠ ChatResult.ok resp := by
  unfold chat
  simp [hall, hres, hout]

/-- Claim C4, witness: a concrete timed-out call is answered with 504 and
its late text "late answer" never reaches the caller. -/
theorem c4_witness :
    (chat c4Engine sampleRequest).result = ChatResult.error 504 timeoutDetail ∧
    ∀ resp : ChatResponse,
      (chat c4Engine sampleRequest).result ≠ ChatResult.ok resp :=
  c4_timeout_504 c4Engine sampleRequest "late answer" rfl rfl
    "gpt_4o_mini" rfl

/-- Claim C5: when the engine returns the empty string or a whitespace-only
string (equivalently, a string that strips to empty), `chat` answers 502. -/
theorem c5_empty_response_502 (eng : Engine) (req : ChatRequest)
    (text : String) (hout : eng.outcome = .returns text)
    (hall : req.history.all validRole = true)
    (f : String) (hres : resolveModel eng req.model = some f)
    (hempty : pyStrip text = "") :
    (chat eng req).result = ChatResult.error 502 emptyDetail := by
  unfold chat
  simp [hall, hres, hout, hempty]

/-- Claim C5, witness: a concrete whitespace-only engine answer is
rejected with 502. -/
theorem c5_witness :
    (chat c5Engine sampleRequest).result = ChatResult.error 502 emptyDetail :=
  c5_empty_response_502 c5Engine sampleRequest " \n\t " rfl rfl
    "gpt_4o_mini" rfl rfl

/-- Claim C6: whenever the engine is invoked, the message list passed to it
is exactly the history entries in order (roles and contents preserved)
followed by one final entry with role "user" and the request message. -/
theorem c6_messages_sent (eng : Engine) (req : ChatRequest)
    (hall : req.history.all validRole = true)
    (f : String) (hres : resolveModel eng req.model = some f) :
    (chat eng req).sentMessages =
      some (req.history ++ [{ role := "user", content := req.message }]) := by
  have hmap : req.history.map
      (fun m => ({ role := m.role, content := m.content } : Message)) =
      req.history := by
    have hid : (fun m : Message =>
        ({ role := m.role, content := m.content } : Message)) = id :=
      funext fun m => rfl
    rw [hid, List.map_id]
  unfold chat
  cases ho : eng.outcome <;> simp [hall, hres, ho, hmap] <;> split <;> rfl

/-- Claim C6, witness: on a concrete two-entry history the engine receives
the two entries in order and then the new user message. -/
theorem c6_witness :
    (chat sampleEngine c6WitnessRequest).sentMessages =
      some (c6WitnessRequest.history ++
        [{ role := "user", content := c6WitnessRequest.message }]) :=
  c6_messages_sent sampleEngine c6WitnessRequest rfl "gpt_4o_mini" rfl

/-- Claim C7: on a successful call the response text is the engine output
stripped of leading and trailing whitespace (hence non-empty), and the
model field is the resolved model object's string form with everything up
to its last dot removed and underscores turned back into hyphens. -/
theorem c7_success_response (eng : Engine) (req : ChatRequest)
    (text : String) (hout : eng.outcome = .returns text)
    (hall : req.history.all validRole = true)
    (f : String) (hres : resolveModel eng req.model = some f)
    (hne : pyStrip text ≠ "") :
    (chat eng req).result =
      ChatResult.ok { response := pyStrip text, model := usedModelName f,
                      provider := providerName eng.provider } ∧
    pyStrip text ≠ "" := by
  have htext : text ≠ "" := by
    intro h
    apply hne
    rw [h]
    rfl
  refine ⟨?_, hne⟩
  unfold chat
  simp [hall, hres, hout, htext, hne]

/-- Claim C7, witness: a concrete successful call returns the stripped
text, the canonicalized model name and the provider. -/
theorem c7_witness :
    (chat sampleEngine sampleRequest).result =
      ChatResult.ok { response := pyStrip "hello",
                      model := usedModelName "gpt_4o_mini",
                      provider := providerName ProviderIntro.absent } ∧
    pyStrip "hello" ≠ "" :=
  c7_success_response sampleEngine sampleRequest "hello" rfl rfl
    "gpt_4o_mini" rfl (by decide)

/-- Claim C8: every successful response carries a provider field that is
the engine's introspected provider name when one is readable, "Unknown"
when the provider attribute is absent, and "Auto" when reading the name
raises — always exactly one of these three. -/
theorem c8_provider_cases (eng : Engine) (req : ChatRequest)
    (resp : ChatResponse)
    (h : (chat eng req).result = ChatResult.ok resp) :
    (∃ n, eng.provider = ProviderIntro.present n ∧ resp.provider = n) ∨
    (eng.provider = ProviderIntro.absent ∧ resp.provider = "Unknown") ∨
    (eng.provider = ProviderIntro.presentRaises ∧ resp.provider = "Auto") := by
  unfold chat at h
  repeat' split at h
  any_goals simp at h
  subst h
  cases hp : eng.provider with
  | absent => exact Or.inr (Or.inl ⟨rfl, rfl⟩)
  | present n => exact Or.inl ⟨n, rfl, rfl⟩
  | presentRaises => exact Or.inr (Or.inr ⟨rfl, rfl⟩)

/-- Claim C8, witness: the concrete successful call reports provider
"Unknown" for an engine exposing no provider attribute. -/
theorem c8_witness :
    (∃ n, sampleEngine.provider = ProviderIntro.present n ∧
      (ChatResponse.mk "hello" "gpt-4o-mini" "Unknown").provider = n) ∨
    (sampleEngine.provider = ProviderIntro.absent ∧
      (ChatResponse.mk "hello" "gpt-4o-mini" "Unknown").provider = "Unknown") ∨
    (sampleEngine.provider = ProviderIntro.presentRaises ∧
      (ChatResponse.mk "hello" "gpt-4o-mini" "Unknown").provider = "Auto") :=
  c8_provider_cases sampleEngine sampleRequest
    (ChatResponse.mk "hello" "gpt-4o-mini" "Unknown") rfl

/-- Claim C9: `listModels` returns exactly the public attribute names of
the engine's model module (those not starting with an underscore), and
answers 500 exactly when the enumeration itself throws. -/
theorem c9_list_models (eng : Engine) :
    (eng.listThrows = false →
      listModels eng = Except.ok (publicCatalog eng)) ∧
    (listModels eng = Except.error (500, modelsErrorDetail) ↔
      eng.listThrows = true) := by
  cases h : eng.listThrows <;> simp [listModels, h]

/-- Claim C9, witness: the concrete sample engine enumerates its one
public model identifier. -/
theorem c9_witness :
    listModels sampleEngine = Except.ok (publicCatalog sampleEngine) :=
  (c9_list_models sampleEngine).1 rfl

/-- Claim C10, witness: the concrete null-model request is answered with a
400 model-not-found error. -/
theorem c10_witness :
    (chat sampleEngine c10WitnessRequest).result.status = 400 ∧
    (c10WitnessRequest.history.all validRole = true →
      (chat sampleEngine c10WitnessRequest).result =
        ChatResult.error 400 (modelNotFoundDetail sampleEngine none)) :=
  c10_null_model_400 sampleEngine c10WitnessRequest rfl

end FastBOZ
